import Mathlib

/-!
Verification development for the wasmer virtual-networking syscall shim
(`port_route_add`) and the `wasmer config` CLI subcommand.

The syscall shim `port_route_add` is embedded directly from
`src/lib/wasi/src/syscalls/wasix/port_route_add.rs`.  Its helpers
(`crate::net::read_cidr`, `crate::net::read_ip`, the guest `WasmPtr` reads,
the virtual network stack's `route_add` and `net_error_into_wasi_err`) live
outside the visible sources and are modelled from the specification.
-/

namespace WasmerSpec

/-- Guest linear memory: a flat, bounds-limited sequence of bytes addressed
by natural-number offsets. -/
abbrev Memory := List Nat

/-- Read one byte of guest memory; fails (returns `none`) out of bounds. -/
def readByte (mem : Memory) (p : Nat) : Option Nat :=
  mem[p]?

/-- Modelled from the spec: the Guest Memory View bounds check.  Reading
`n` bytes at offset `p` succeeds exactly when `p .. p + n` lies within the
current linear memory's bounds; otherwise it is a memory error. -/
def readBytes (mem : Memory) (p n : Nat) : Option (List Nat) :=
  if p + n ≤ mem.length then some ((mem.drop p).take n) else none

/-- The closed enumeration of status codes returned across the trust
boundary (the fragment of wasix `Errno` these operations use). -/
inductive Errno
  | success
  | inval
  | noent
  | exist
  | memviolation
deriving DecidableEq, BEq

/-- Semantic errors of the virtual network stack (spec §7). -/
inductive NetworkError
  | invalidRoute
  | notFound
  | alreadyExists
deriving DecidableEq, BEq

/-- Modelled from the spec: the shim's mapping of a `NetworkError` variant
to a `StatusCode` (`net_error_into_wasi_err`, not under the visible
sources); each variant maps to the POSIX-style code of its meaning. -/
def net_error_into_wasi_err : NetworkError → Errno
  | .invalidRoute => .inval
  | .notFound => .noent
  | .alreadyExists => .exist

/-- A guest IP address: tagged union over IPv4/IPv6 octet representations. -/
inductive IpAddr
  | v4 : List Nat → IpAddr
  | v6 : List Nat → IpAddr
deriving DecidableEq, BEq

/-- A CIDR: an address plus a prefix length. -/
structure Cidr where
  ip : IpAddr
  prefixLen : Nat
deriving DecidableEq, BEq

/-- A duration since the epoch, counted in nanoseconds (the host-side value
an `OptionTimestamp` decodes to). -/
structure Duration where
  nanos : Nat
deriving DecidableEq, BEq

/-- `Duration::from_nanos`. -/
def Duration.from_nanos (n : Nat) : Duration := ⟨n⟩

/-- The raw guest wire structure `OptionTimestamp`: a tag byte and a u64
value field.  The tag is kept as the raw byte, since the guest may store
any value there. -/
structure OptionTimestamp where
  tag : Nat
  u : Nat
deriving DecidableEq, BEq

/-- Little-endian interpretation of a byte list as an unsigned integer. -/
def leU64 (bs : List Nat) : Nat :=
  bs.foldr (fun b acc => b + 256 * acc) 0

/-- Modelled from the spec: the bounds-checked guest read
`WasmPtr<OptionTimestamp, M>::read` of the wire layout
`OptionalTimestamp = (tag: u8, value: u64 nanoseconds)` — a tag byte at
offset 0 followed by a little-endian u64 at offset 1. -/
def readOptionTimestamp (mem : Memory) (p : Nat) : Option OptionTimestamp :=
  match readBytes mem p 9 with
  | none => none
  | some bs => some ⟨bs.headD 0, leU64 (bs.drop 1)⟩

/-- The shim's decoding of a successfully-read `OptionTimestamp`: the
`match preferred_until.tag` / `match expires_at.tag` blocks of
`port_route_add` (tag 0 = absent, tag 1 = present, anything else is
`Errno::Inval`). -/
def decodeOptionTimestamp (ts : OptionTimestamp) : Except Errno (Option Duration) :=
  match ts.tag with
  | 0 => .ok none
  | 1 => .ok (some (Duration.from_nanos ts.u))
  | _ => .error .inval

/-- Modelled from the spec: `crate::net::read_ip` — a bounds-checked read
of an `Address = (tag: u8, payload: 4 or 16 bytes)` followed by its decode:
an unrecognized tag byte fails with the invalid-argument status, an
out-of-bounds read fails with the memory-error status.  Family tag 0 is
IPv4, tag 1 is IPv6 (the spec fixes the shape, not the numbering). -/
def read_ip (mem : Memory) (p : Nat) : Except Errno IpAddr :=
  match readByte mem p with
  | none => .error .memviolation
  | some 0 =>
    match readBytes mem (p + 1) 4 with
    | none => .error .memviolation
    | some bs => .ok (.v4 bs)
  | some 1 =>
    match readBytes mem (p + 1) 16 with
    | none => .error .memviolation
    | some bs => .ok (.v6 bs)
  | some _ => .error .inval

/-- Modelled from the spec: `crate::net::read_cidr` — a bounds-checked read
of `Cidr = (Address, prefix_len: u8)` followed by its decode: an
unrecognized address tag fails with the invalid-argument status, a prefix
length exceeding the address's bit-width (32 for IPv4, 128 for IPv6) fails
the same way, and an out-of-bounds read fails with the memory-error
status. -/
def read_cidr (mem : Memory) (p : Nat) : Except Errno Cidr :=
  match readByte mem p with
  | none => .error .memviolation
  | some 0 =>
    match readBytes mem (p + 1) 5 with
    | none => .error .memviolation
    | some bs =>
      let pl := bs.getD 4 0
      if pl ≤ 32 then .ok ⟨.v4 (bs.take 4), pl⟩ else .error .inval
  | some 1 =>
    match readBytes mem (p + 1) 17 with
    | none => .error .memviolation
    | some bs =>
      let pl := bs.getD 16 0
      if pl ≤ 128 then .ok ⟨.v6 (bs.take 16), pl⟩ else .error .inval
  | some _ => .error .inval

/-- A route owned by the virtual network stack. -/
structure Route where
  destination : Cidr
  via_router : IpAddr
  preferred_until : Option Duration
  expires_at : Option Duration
deriving DecidableEq, BEq

/-- The per-process routing table: an ordered collection of routes keyed by
destination CIDR. -/
abbrev RoutingTable := List Route

/-- Consistency of a CIDR's prefix length and address family, re-validated
by the stack (spec §4.3). -/
def cidrValid : Cidr → Bool
  | ⟨.v4 bs, pl⟩ => bs.length == 4 && decide (pl ≤ 32)
  | ⟨.v6 bs, pl⟩ => bs.length == 16 && decide (pl ≤ 128)

/-- Modelled from the spec: the virtual network stack's `route_add`
(`env.net().route_add`, not under the visible sources) — inserts or
replaces the route keyed by `cidr` (replace policy, spec §9), performing no
wall-clock validation of the timestamps; fails with
`NetworkError::InvalidRoute` if the prefix length/address-family
combination is inconsistent. -/
def route_add (table : RoutingTable) (cidr : Cidr) (via_router : IpAddr)
    (preferred_until expires_at : Option Duration) :
    Except NetworkError RoutingTable :=
  if cidrValid cidr then
    .ok (table.filter (fun r => r.destination != cidr) ++
      [⟨cidr, via_router, preferred_until, expires_at⟩])
  else .error .invalidRoute

/-- The type of the virtual networking capability the shim dispatches to
(`env.net()` is a dynamic interface in the source, so the shim is
parametric in it). -/
abbrev RouteAddImpl :=
  RoutingTable → Cidr → IpAddr → Option Duration → Option Duration →
    Except NetworkError RoutingTable

/-- The syscall shim `port_route_add` of
`src/lib/wasi/src/syscalls/wasix/port_route_add.rs`, embedded over guest
memory `mem` and the caller's routing table `table`; `radd` is the caller's
networking implementation (`env.net().route_add`).  The result carries the
returned `Errno` together with the final routing table and guest memory.
The source's two `match …tag` blocks are factored through
`decodeOptionTimestamp`. -/
def port_route_add (radd : RouteAddImpl) (mem : Memory) (table : RoutingTable)
    (cidr via_router preferred_until expires_at : Nat) :
    Errno × RoutingTable × Memory :=
  match read_cidr mem cidr with
  | .error e => (e, table, mem)
  | .ok cidrV =>
    match read_ip mem via_router with
    | .error e => (e, table, mem)
    | .ok via_routerV =>
      match readOptionTimestamp mem preferred_until with
      | none => (.memviolation, table, mem)
      | some puRaw =>
        match decodeOptionTimestamp puRaw with
        | .error e => (e, table, mem)
        | .ok preferred_untilV =>
          match readOptionTimestamp mem expires_at with
          | none => (.memviolation, table, mem)
          | some eaRaw =>
            match decodeOptionTimestamp eaRaw with
            | .error e => (e, table, mem)
            | .ok expires_atV =>
              match radd table cidrV via_routerV preferred_untilV expires_atV with
              | .error err => (net_error_into_wasi_err err, table, mem)
              | .ok table2 => (.success, table2, mem)

/-- The argument-decoding pipeline of `port_route_add` in isolation: the
four bounds-checked reads and decodes, in the order the shim performs
them. -/
def decodeArgs (mem : Memory) (cidr via_router preferred_until expires_at : Nat) :
    Except Errno (Cidr × IpAddr × Option Duration × Option Duration) :=
  match read_cidr mem cidr with
  | .error e => .error e
  | .ok cidrV =>
    match read_ip mem via_router with
    | .error e => .error e
    | .ok via_routerV =>
      match readOptionTimestamp mem preferred_until with
      | none => .error .memviolation
      | some puRaw =>
        match decodeOptionTimestamp puRaw with
        | .error e => .error e
        | .ok preferred_untilV =>
          match readOptionTimestamp mem expires_at with
          | none => .error .memviolation
          | some eaRaw =>
            match decodeOptionTimestamp eaRaw with
            | .error e => .error e
            | .ok expires_atV =>
              .ok (cidrV, via_routerV, preferred_untilV, expires_atV)

/-- `port_route_add` factors through its decoding pipeline: a decode error
is returned as-is with all state unchanged, and on success the decoded
values are handed to the networking implementation. -/
theorem port_route_add_eq_decodeArgs (radd : RouteAddImpl) (mem : Memory)
    (table : RoutingTable) (pc pr pp pe : Nat) :
    port_route_add radd mem table pc pr pp pe =
      match decodeArgs mem pc pr pp pe with
      | .error e => (e, table, mem)
      | .ok (c, v, d1, d2) =>
        match radd table c v d1 d2 with
        | .error err => (net_error_into_wasi_err err, table, mem)
        | .ok table2 => (.success, table2, mem) := by
  cases hc : read_cidr mem pc with
  | error e => simp [port_route_add, decodeArgs, hc]
  | ok c =>
    cases hr : read_ip mem pr with
    | error e => simp [port_route_add, decodeArgs, hc, hr]
    | ok v =>
      cases h1 : readOptionTimestamp mem pp with
      | none => simp [port_route_add, decodeArgs, hc, hr, h1]
      | some r1 =>
        cases hd1 : decodeOptionTimestamp r1 with
        | error e => simp [port_route_add, decodeArgs, hc, hr, h1, hd1]
        | ok d1 =>
          cases h2 : readOptionTimestamp mem pe with
          | none => simp [port_route_add, decodeArgs, hc, hr, h1, hd1, h2]
          | some r2 =>
            cases hd2 : decodeOptionTimestamp r2 with
            | error e => simp [port_route_add, decodeArgs, hc, hr, h1, hd1, h2, hd2]
            | ok d2 => simp [port_route_add, decodeArgs, hc, hr, h1, hd1, h2, hd2]

/-!
Embedding of the `wasmer config` CLI subcommand from
`src/lib/cli/src/commands/config.rs`.  The `WasmerConfig` collaborator
(`wasmer_registry` crate: `from_file`, `get_file_location`, `save`, the
registry accessors) and the process environment are outside the visible
sources; they are modelled from the spec as explicit inputs to
`Config.inner_execute`, and effects (printing, saving) as explicit
outputs. -/

/-- Per-registry login token entry of the registries configuration. -/
structure RegistryLogin where
  registry : String
  token : String
deriving DecidableEq

/-- Modelled from the spec: the multi-registry part of the wasmer config
(`wasmer_registry::config`): the currently active registry and the login
tokens per registry. -/
structure RegistriesConfig where
  currentRegistry : String
  tokens : List RegistryLogin
deriving DecidableEq

/-- `Registries::get_current_registry`. -/
def RegistriesConfig.get_current_registry (r : RegistriesConfig) : String :=
  r.currentRegistry

/-- Modelled from the spec: `Registries::get_login_token_for_registry` —
the token stored for the given registry, or nothing if not logged in. -/
def RegistriesConfig.get_login_token_for_registry (r : RegistriesConfig)
    (reg : String) : Option String :=
  (r.tokens.find? (fun l => l.registry == reg)).map (fun l => l.token)

/-- Modelled from the spec: `Registries::set_current_registry`. -/
def RegistriesConfig.set_current_registry (r : RegistriesConfig)
    (url : String) : RegistriesConfig :=
  { r with currentRegistry := url }

/-- Modelled from the spec: `Registries::set_login_token_for_registry`
with `UpdateRegistry::LeaveAsIs` — stores the token for the registry
without changing the current registry. -/
def RegistriesConfig.set_login_token_for_registry (r : RegistriesConfig)
    (reg tok : String) : RegistriesConfig :=
  { r with tokens := ⟨reg, tok⟩ :: r.tokens.filter (fun l => l.registry != reg) }

/-- The proxy section of the wasmer config: an optional proxy URL. -/
structure ProxyConfig where
  url : Option String
deriving DecidableEq

/-- Modelled from the spec: the user-level `WasmerConfig` settings file
(registry URL, tokens, telemetry flags, proxy). -/
structure WasmerConfig where
  registry : RegistriesConfig
  telemetry_enabled : Bool
  update_notifications_enabled : Bool
  proxy : ProxyConfig
deriving DecidableEq

/-- Values retrievable by `wasmer config get` (`RetrievableConfigField`). -/
inductive RetrievableConfigField
  | prefixPath
  | bindir
  | includedir
  | libdir
  | libs
  | cflags
  | pkgConfig
  | configPath
  | registryUrl
  | registryToken
  | telemetryEnabled
  | updateNotificationsEnabled
  | proxyUrl
deriving DecidableEq

/-- `wasmer config set registry.url URL`. -/
structure SetRegistryUrl where
  url : String
deriving DecidableEq

/-- `wasmer config set registry.token TOKEN`. -/
structure SetRegistryToken where
  token : String
deriving DecidableEq

/-- `wasmer config set telemetry.enabled true|false` (the `BoolString`
argument, already parsed to its boolean). -/
structure SetTelemetryEnabled where
  enabled : Bool
deriving DecidableEq

/-- `wasmer config set update-notifications.enabled true|false`. -/
structure SetUpdateNotificationsEnabled where
  enabled : Bool
deriving DecidableEq

/-- `wasmer config set proxy.url [URL]` (empty = unset proxy). -/
structure SetProxyUrl where
  url : Option String
deriving DecidableEq

/-- Settings storable by `wasmer config set` (`StorableConfigField`). -/
inductive StorableConfigField
  | registryUrl : SetRegistryUrl → StorableConfigField
  | registryToken : SetRegistryToken → StorableConfigField
  | telemetryEnabled : SetTelemetryEnabled → StorableConfigField
  | updateNotificationsEnabled : SetUpdateNotificationsEnabled → StorableConfigField
  | proxyUrl : SetProxyUrl → StorableConfigField
deriving DecidableEq

/-- The `wasmer config` subcommand: `get` or `set`. -/
inductive Config
  | get : RetrievableConfigField → Config
  | set : StorableConfigField → Config
deriving DecidableEq

/-- Modelled from the spec: the process environment and file-system
collaborators `Config::inner_execute` consults — the `WASMER_DIR`
environment variable, the compile-time `WASMER_INSTALL_PREFIX`, the
outcome of `WasmerConfig::get_file_location`, the outcome of
`WasmerConfig::from_file`, the logged-in username if any, and whether
`WasmerConfig::save` would succeed. -/
structure CliEnv where
  wasmer_dir_env : Option String
  installPrefixVar : Option String
  config_file_location : Except String String
  config_file : Except String WasmerConfig
  username : Option String
  save_ok : Bool

/-- The `WASMER_DIR` resolution at the top of `Config::inner_execute`:
`env::var("WASMER_DIR").or_else(|e| option_env!("WASMER_INSTALL_PREFIX")…)`. -/
def resolveWasmerDir (env : CliEnv) : Option String :=
  match env.wasmer_dir_env with
  | some d => some d
  | none => env.installPrefixVar

/-- The crate version printed by `config get pkg-config`. -/
def VERSION : String := "wasmer-version"

/-- The observable outcome of one `Config::inner_execute` run: the
`Result<()>`, the lines printed to stdout, and the config written to disk
if a save happened. -/
structure ExecResult where
  result : Except String Unit
  printed : List String
  saved : Option WasmerConfig

/-- `Config::inner_execute` of `src/lib/cli/src/commands/config.rs`,
embedded over the explicit collaborator state `env`. -/
def Config.inner_execute (c : Config) (env : CliEnv) : ExecResult :=
  match resolveWasmerDir env with
  | none => ⟨.error "failed to retrieve the WASMER_DIR environment variables", [], none⟩
  | some wasmer_dir =>
    let prefixdir := wasmer_dir
    let bindir := wasmer_dir ++ "/bin"
    let includedir := wasmer_dir ++ "/include"
    let libdir := wasmer_dir ++ "/lib"
    let cflags := "-I" ++ includedir
    let libs := "-L" ++ libdir ++ " -lwasmer"
    match c with
    | .get g =>
      match g with
      | .pkgConfig =>
        ⟨.ok (), ["prefix=" ++ prefixdir, "exec_prefix=" ++ bindir,
          "includedir=" ++ includedir, "libdir=" ++ libdir, "",
          "Name: wasmer",
          "Description: The Wasmer library for running WebAssembly",
          "Version: " ++ VERSION, "Cflags: " ++ cflags, "Libs: " ++ libs], none⟩
      | .prefixPath => ⟨.ok (), [prefixdir], none⟩
      | .bindir => ⟨.ok (), [bindir], none⟩
      | .includedir => ⟨.ok (), [includedir], none⟩
      | .libdir => ⟨.ok (), [libdir], none⟩
      | .libs => ⟨.ok (), [libs], none⟩
      | .cflags => ⟨.ok (), [cflags], none⟩
      | .configPath =>
        match env.config_file_location with
        | .error e => ⟨.error ("could not find config file: " ++ e), [], none⟩
        | .ok path => ⟨.ok (), [path], none⟩
      | .registryUrl =>
        match env.config_file with
        | .error e => ⟨.error ("could not find config file: " ++ e), [], none⟩
        | .ok config => ⟨.ok (), [config.registry.get_current_registry], none⟩
      | .registryToken =>
        match env.config_file with
        | .error e => ⟨.error ("could not find config file: " ++ e), [], none⟩
        | .ok config =>
          match config.registry.get_login_token_for_registry
              config.registry.get_current_registry with
          | some s => ⟨.ok (), [s], none⟩
          | none => ⟨.ok (), [], none⟩
      | .proxyUrl =>
        match env.config_file with
        | .error e => ⟨.error ("could not find config file: " ++ e), [], none⟩
        | .ok config =>
          match config.proxy.url with
          | some s => ⟨.ok (), [s], none⟩
          | none => ⟨.ok (), [], none⟩
      | .telemetryEnabled =>
        match env.config_file with
        | .error e => ⟨.error ("could not find config file: " ++ e), [], none⟩
        | .ok config => ⟨.ok (), [toString config.telemetry_enabled], none⟩
      | .updateNotificationsEnabled =>
        match env.config_file with
        | .error e => ⟨.error ("could not find config file: " ++ e), [], none⟩
        | .ok config => ⟨.ok (), [toString config.update_notifications_enabled], none⟩
    | .set s =>
      match env.config_file_location with
      | .error e => ⟨.error ("could not find config file " ++ e), [], none⟩
      | .ok config_file =>
        match env.config_file with
        | .error e =>
          ⟨.error ("could not find config file " ++ e ++ " at " ++ config_file), [], none⟩
        | .ok config =>
          let step : WasmerConfig × List String :=
            match s with
            | .registryUrl u =>
              let config2 :=
                { config with registry := config.registry.set_current_registry u.url }
              let current := config2.registry.get_current_registry
              match env.username with
              | some user =>
                (config2,
                  ["Successfully logged into registry " ++ current ++
                    " as user " ++ user])
              | none => (config2, [])
            | .registryToken t =>
              ({ config with registry :=
                  (config.registry.set_login_token_for_registry
                    config.registry.get_current_registry t.token) }, [])
            | .telemetryEnabled t =>
              ({ config with telemetry_enabled := t.enabled }, [])
            | .proxyUrl p =>
              ({ config with proxy := ⟨p.url⟩ }, [])
            | .updateNotificationsEnabled u =>
              ({ config with update_notifications_enabled := u.enabled }, [])
          if env.save_ok then ⟨.ok (), step.2, some step.1⟩
          else ⟨.error "could not save config file", step.2, none⟩

/-! ### Helper lemmas -/

/-- Reading a single byte at an offset at or past the end of memory fails. -/
theorem readByte_oob (mem : Memory) (p : Nat) (h : mem.length ≤ p) :
    readByte mem p = none :=
  List.getElem?_eq_none h

/-- Reading a nonempty span starting at or past the end of memory fails. -/
theorem readBytes_oob (mem : Memory) (p n : Nat) (hn : 1 ≤ n)
    (h : mem.length ≤ p) : readBytes mem p n = none := by
  simp only [readBytes, ite_eq_right_iff]
  omega

/-- A tag byte outside `{0, 1}` makes the shim's timestamp decode fail with
the invalid-argument status. -/
theorem decodeOptionTimestamp_bad_tag (ts : OptionTimestamp) (h : 2 ≤ ts.tag) :
    decodeOptionTimestamp ts = .error .inval := by
  unfold decodeOptionTimestamp
  cases h0 : ts.tag with
  | zero => omega
  | succ n =>
    cases n with
    | zero => omega
    | succ m => rfl

/-- A tag byte in `{0, 1}` makes the shim's timestamp decode succeed. -/
theorem decodeOptionTimestamp_good_tag (ts : OptionTimestamp) (h : ts.tag ≤ 1) :
    ∃ d, decodeOptionTimestamp ts = .ok d := by
  unfold decodeOptionTimestamp
  cases h0 : ts.tag with
  | zero => exact ⟨none, rfl⟩
  | succ n =>
    cases n with
    | zero => exact ⟨some (Duration.from_nanos ts.u), rfl⟩
    | succ m => omega

/-! ### Claims about `port_route_add` -/

/-- C1: if reading or decoding any of the four pointer arguments of
`port_route_add` fails — in particular when a pointer lies past the end of
the guest's current memory, which fails bounds checking with the
memory-error status — the function returns that error status immediately,
`route_add` is never invoked (the result is the same for every networking
implementation), and the routing table and guest memory are unchanged. -/
theorem port_route_add_fail_fast (mem : Memory) (table : RoutingTable)
    (pc pr pp pe : Nat) (e : Errno) :
    (decodeArgs mem pc pr pp pe = .error e →
      ∀ radd : RouteAddImpl,
        port_route_add radd mem table pc pr pp pe = (e, table, mem)) ∧
    (mem.length ≤ pc → read_cidr mem pc = .error .memviolation) ∧
    (mem.length ≤ pr → read_ip mem pr = .error .memviolation) ∧
    (mem.length ≤ pp → readOptionTimestamp mem pp = none) := by
  refine ⟨fun h radd => ?_, fun h => ?_, fun h => ?_, fun h => ?_⟩
  · rw [port_route_add_eq_decodeArgs, h]
  · simp [read_cidr, readByte_oob mem pc h]
  · simp [read_ip, readByte_oob mem pr h]
  · simp [readOptionTimestamp, readBytes_oob mem pp 9 (by omega) h]

/-- Witness for C1 at empty guest memory: all pointers are out of bounds,
the shim returns the memory-error status and leaves table and memory
unchanged. -/
theorem port_route_add_fail_fast_witness :
    port_route_add route_add [] [] 0 0 0 0 = (.memviolation, [], []) ∧
    read_cidr ([] : Memory) 0 = .error .memviolation := by
  have h := port_route_add_fail_fast [] [] 0 0 0 0 .memviolation
  exact ⟨h.1 rfl route_add, h.2.1 (by decide)⟩

/-- C2: if the tag byte of either optional-timestamp argument reads
successfully but is any value outside `{0, 1}` (absent/present), the shim
returns `Errno::Inval` without invoking `route_add`, for every networking
implementation, leaving table and memory unchanged. -/
theorem port_route_add_bad_tag_inval (mem : Memory) (table : RoutingTable)
    (pc pr pp pe : Nat) (c : Cidr) (v : IpAddr) (r1 : OptionTimestamp)
    (hc : read_cidr mem pc = .ok c)
    (hr : read_ip mem pr = .ok v)
    (h1 : readOptionTimestamp mem pp = some r1)
    (hbad : 2 ≤ r1.tag ∨
      (r1.tag ≤ 1 ∧ ∃ r2, readOptionTimestamp mem pe = some r2 ∧ 2 ≤ r2.tag)) :
    ∀ radd : RouteAddImpl,
      port_route_add radd mem table pc pr pp pe = (.inval, table, mem) := by
  intro radd
  rcases hbad with hbad | ⟨hle, r2, h2, hbad2⟩
  · simp [port_route_add, hc, hr, h1, decodeOptionTimestamp_bad_tag r1 hbad]
  · obtain ⟨d1, hd1⟩ := decodeOptionTimestamp_good_tag r1 hle
    simp [port_route_add, hc, hr, h1, hd1, h2,
      decodeOptionTimestamp_bad_tag r2 hbad2]

/-- Witness for C2: concrete guest memory holding a valid CIDR, a valid
router address and a timestamp structure with tag byte 2; the shim returns
`Errno::Inval` and the table is unchanged. -/
theorem port_route_add_bad_tag_inval_witness :
    port_route_add route_add
      [0, 10, 0, 0, 0, 8, 0, 10, 0, 0, 1, 2, 0, 0, 0, 0, 0, 0, 0, 0]
      [] 0 6 11 11 =
      (.inval, [],
        [0, 10, 0, 0, 0, 8, 0, 10, 0, 0, 1, 2, 0, 0, 0, 0, 0, 0, 0, 0]) :=
  port_route_add_bad_tag_inval
    [0, 10, 0, 0, 0, 8, 0, 10, 0, 0, 1, 2, 0, 0, 0, 0, 0, 0, 0, 0]
    [] 0 6 11 11 ⟨.v4 [10, 0, 0, 0], 8⟩ (.v4 [10, 0, 0, 1]) ⟨2, 0⟩
    rfl rfl rfl (Or.inl (by decide)) route_add

/-- C3: `port_route_add` is total over all guest inputs — for every guest
memory, routing table, networking implementation and combination of the
four pointer arguments it returns some status code (with a resulting table
and memory); no input is outside its domain. -/
theorem port_route_add_total (radd : RouteAddImpl) (mem : Memory)
    (table : RoutingTable) (pc pr pp pe : Nat) :
    ∃ e t m, port_route_add radd mem table pc pr pp pe = (e, t, m) :=
  ⟨_, _, _, rfl⟩

/-- C4: for every optional-timestamp structure successfully read from
guest memory, tag 0 decodes to the absent value and tag 1 decodes to a
present duration whose value is the structure's u64 field as a count of
nanoseconds. -/
theorem optionTimestamp_decode_correct (mem : Memory) (p : Nat)
    (r : OptionTimestamp) (_h : readOptionTimestamp mem p = some r) :
    (r.tag = 0 → decodeOptionTimestamp r = .ok none) ∧
    (r.tag = 1 → decodeOptionTimestamp r = .ok (some (Duration.from_nanos r.u)) ∧
      (Duration.from_nanos r.u).nanos = r.u) := by
  constructor
  · intro ht
    simp [decodeOptionTimestamp, ht]
  · intro ht
    exact ⟨by simp [decodeOptionTimestamp, ht], rfl⟩

/-- Witness for C4: concrete 9-byte structures with tag 0 and tag 1 read
from concrete guest memory decode to the absent value and to a present
5- resp. 7-nanosecond duration. -/
theorem optionTimestamp_decode_correct_witness :
    decodeOptionTimestamp ⟨0, 5⟩ = .ok none ∧
    decodeOptionTimestamp ⟨1, 7⟩ = .ok (some ⟨7⟩) := by
  have h0 := optionTimestamp_decode_correct [0, 5, 0, 0, 0, 0, 0, 0, 0] 0 ⟨0, 5⟩ rfl
  have h1 := optionTimestamp_decode_correct [1, 7, 0, 0, 0, 0, 0, 0, 0] 0 ⟨1, 7⟩ rfl
  exact ⟨h0.1 rfl, (h1.2 rfl).1⟩

/-- C5: when all four arguments decode successfully, the decoded values —
in particular `preferred_until` and `expires_at` — are handed to the
networking implementation unchanged, and the outcome is determined solely
by that implementation's answer: no comparison against wall-clock time is
interposed, so a `expires_at` already in the past does not by itself fail
the call. -/
theorem port_route_add_passes_args_unchanged (mem : Memory)
    (table : RoutingTable) (pc pr pp pe : Nat) (c : Cidr) (v : IpAddr)
    (d1 d2 : Option Duration)
    (h : decodeArgs mem pc pr pp pe = .ok (c, v, d1, d2)) :
    ∀ radd : RouteAddImpl,
      port_route_add radd mem table pc pr pp pe =
        match radd table c v d1 d2 with
        | .error err => (net_error_into_wasi_err err, table, mem)
        | .ok table2 => (.success, table2, mem) := by
  intro radd
  rw [port_route_add_eq_decodeArgs, h]

/-- Witness for C5: a fully valid concrete request whose `expires_at` is
present with value 0 nanoseconds (certainly in the past) still succeeds,
and the stored route carries exactly the decoded timestamps. -/
theorem port_route_add_passes_args_unchanged_witness :
    port_route_add route_add
      [0, 10, 0, 0, 0, 8, 0, 10, 0, 0, 1,
        1, 1, 0, 0, 0, 0, 0, 0, 0, 1, 0, 0, 0, 0, 0, 0, 0, 0]
      [] 0 6 11 20 =
      (.success,
        [⟨⟨.v4 [10, 0, 0, 0], 8⟩, .v4 [10, 0, 0, 1], some ⟨1⟩, some ⟨0⟩⟩],
        [0, 10, 0, 0, 0, 8, 0, 10, 0, 0, 1,
          1, 1, 0, 0, 0, 0, 0, 0, 0, 1, 0, 0, 0, 0, 0, 0, 0, 0]) := by
  have h := port_route_add_passes_args_unchanged
    [0, 10, 0, 0, 0, 8, 0, 10, 0, 0, 1,
      1, 1, 0, 0, 0, 0, 0, 0, 0, 1, 0, 0, 0, 0, 0, 0, 0, 0]
    [] 0 6 11 20 ⟨.v4 [10, 0, 0, 0], 8⟩ (.v4 [10, 0, 0, 1])
    (some ⟨1⟩) (some ⟨0⟩) rfl route_add
  rw [h]
  rfl

/-- C6: on every execution path — success and every failure path — the
shim's only output is the returned status code: the guest's linear memory
is returned exactly as it was received, never written. -/
theorem port_route_add_no_guest_writes (radd : RouteAddImpl) (mem : Memory)
    (table : RoutingTable) (pc pr pp pe : Nat) :
    (port_route_add radd mem table pc pr pp pe).2.2 = mem := by
  rw [port_route_add_eq_decodeArgs]
  cases _hda : decodeArgs mem pc pr pp pe with
  | error e => rfl
  | ok q =>
    obtain ⟨c, v, d1, d2⟩ := q
    cases h2 : radd table c v d1 d2 <;> simp [h2]

/-- C7: when all four arguments decode successfully, an `Ok` from the
networking implementation's `route_add` yields `Errno::Success` (with the
new table), and an `Err` carrying a `NetworkError` yields exactly
`net_error_into_wasi_err` of that error (with the table unchanged). -/
theorem port_route_add_maps_stack_result (mem : Memory)
    (table : RoutingTable) (pc pr pp pe : Nat) (c : Cidr) (v : IpAddr)
    (d1 d2 : Option Duration) (radd : RouteAddImpl)
    (h : decodeArgs mem pc pr pp pe = .ok (c, v, d1, d2)) :
    (∀ table2, radd table c v d1 d2 = .ok table2 →
      port_route_add radd mem table pc pr pp pe = (.success, table2, mem)) ∧
    (∀ err, radd table c v d1 d2 = .error err →
      port_route_add radd mem table pc pr pp pe =
        (net_error_into_wasi_err err, table, mem)) := by
  rw [port_route_add_eq_decodeArgs, h]
  refine ⟨fun table2 h2 => ?_, fun err h2 => ?_⟩ <;> simp [h2]

/-- Witness for C7: a valid concrete request succeeds with `Errno::Success`
under the modelled stack, and returns the mapped code (`Errno.noent`) and
an unchanged table under an implementation that reports `NotFound`. -/
theorem port_route_add_maps_stack_result_witness :
    port_route_add route_add
      [0, 10, 0, 0, 0, 8, 0, 10, 0, 0, 1,
        1, 1, 0, 0, 0, 0, 0, 0, 0, 0, 0, 0, 0, 0, 0, 0, 0, 0]
      [] 0 6 11 20 =
      (.success,
        [⟨⟨.v4 [10, 0, 0, 0], 8⟩, .v4 [10, 0, 0, 1], some ⟨1⟩, none⟩],
        [0, 10, 0, 0, 0, 8, 0, 10, 0, 0, 1,
          1, 1, 0, 0, 0, 0, 0, 0, 0, 0, 0, 0, 0, 0, 0, 0, 0, 0]) ∧
    port_route_add (fun _ _ _ _ _ => .error .notFound)
      [0, 10, 0, 0, 0, 8, 0, 10, 0, 0, 1,
        1, 1, 0, 0, 0, 0, 0, 0, 0, 0, 0, 0, 0, 0, 0, 0, 0, 0]
      [] 0 6 11 20 =
      (.noent, [],
        [0, 10, 0, 0, 0, 8, 0, 10, 0, 0, 1,
          1, 1, 0, 0, 0, 0, 0, 0, 0, 0, 0, 0, 0, 0, 0, 0, 0, 0]) := by
  have hok := port_route_add_maps_stack_result
    [0, 10, 0, 0, 0, 8, 0, 10, 0, 0, 1,
      1, 1, 0, 0, 0, 0, 0, 0, 0, 0, 0, 0, 0, 0, 0, 0, 0, 0]
    [] 0 6 11 20 ⟨.v4 [10, 0, 0, 0], 8⟩ (.v4 [10, 0, 0, 1])
    (some ⟨1⟩) none route_add rfl
  have herr := port_route_add_maps_stack_result
    [0, 10, 0, 0, 0, 8, 0, 10, 0, 0, 1,
      1, 1, 0, 0, 0, 0, 0, 0, 0, 0, 0, 0, 0, 0, 0, 0, 0, 0]
    [] 0 6 11 20 ⟨.v4 [10, 0, 0, 0], 8⟩ (.v4 [10, 0, 0, 1])
    (some ⟨1⟩) none (fun _ _ _ _ _ => .error .notFound) rfl
  exact ⟨hok.1 _ rfl, herr.2 .notFound rfl⟩

/-! ### Claims about `wasmer config` -/

/-- C8: with the wasmer directory resolvable and the config loaded,
`wasmer config get proxy.url` and `wasmer config get registry.token`
return `Ok` whether or not the optional value is set, and print nothing
when it is absent. -/
theorem config_get_optional_silent_on_absence (env : CliEnv) (d : String)
    (cfg : WasmerConfig)
    (hd : resolveWasmerDir env = some d)
    (hc : env.config_file = .ok cfg) :
    ((Config.get .proxyUrl).inner_execute env).result = .ok () ∧
    ((Config.get .registryToken).inner_execute env).result = .ok () ∧
    (cfg.proxy.url = none →
      ((Config.get .proxyUrl).inner_execute env).printed = []) ∧
    (cfg.registry.get_login_token_for_registry
        cfg.registry.get_current_registry = none →
      ((Config.get .registryToken).inner_execute env).printed = []) := by
  refine ⟨?_, ?_, fun hp => ?_, fun ht => ?_⟩
  · cases hp : cfg.proxy.url <;> simp [Config.inner_execute, hd, hc, hp]
  · cases ht : cfg.registry.get_login_token_for_registry
        cfg.registry.get_current_registry <;>
      simp [Config.inner_execute, hd, hc, ht]
  · simp [Config.inner_execute, hd, hc, hp]
  · simp [Config.inner_execute, hd, hc, ht]

/-- A concrete environment for the C8 witness: `WASMER_DIR` set, config
file present, no proxy URL and no login token stored. -/
def envAbsent : CliEnv :=
  ⟨some "/home/user/.wasmer", none, .ok "/home/user/.wasmer/wasmer.toml",
    .ok ⟨⟨"https://registry.wasmer.io", []⟩, false, false, ⟨none⟩⟩, none, true⟩

/-- Witness for C8: on `envAbsent` both getters return `Ok` and print
nothing. -/
theorem config_get_optional_silent_on_absence_witness :
    ((Config.get .proxyUrl).inner_execute envAbsent).result = .ok () ∧
    ((Config.get .registryToken).inner_execute envAbsent).result = .ok () ∧
    ((Config.get .proxyUrl).inner_execute envAbsent).printed = [] ∧
    ((Config.get .registryToken).inner_execute envAbsent).printed = [] := by
  have h := config_get_optional_silent_on_absence envAbsent "/home/user/.wasmer"
    ⟨⟨"https://registry.wasmer.io", []⟩, false, false, ⟨none⟩⟩ rfl rfl
  exact ⟨h.1, h.2.1, h.2.2.1 rfl, h.2.2.2 rfl⟩

/-- C9: every `wasmer config set` subcommand returns an error and saves
nothing when locating or parsing the existing config file fails — the
config file on disk is left unchanged. -/
theorem config_set_no_save_on_load_failure (env : CliEnv)
    (s : StorableConfigField)
    (h : (∃ e, env.config_file_location = .error e) ∨
      (∃ e, env.config_file = .error e)) :
    (∃ msg, ((Config.set s).inner_execute env).result = .error msg) ∧
    ((Config.set s).inner_execute env).saved = none := by
  cases hd : resolveWasmerDir env with
  | none =>
    exact ⟨⟨"failed to retrieve the WASMER_DIR environment variables",
      by simp [Config.inner_execute, hd]⟩, by simp [Config.inner_execute, hd]⟩
  | some d =>
    rcases h with ⟨e, he⟩ | ⟨e, he⟩
    · exact ⟨⟨"could not find config file " ++ e,
        by simp [Config.inner_execute, hd, he]⟩,
        by simp [Config.inner_execute, hd, he]⟩
    · cases hl : env.config_file_location with
      | error e2 =>
        exact ⟨⟨"could not find config file " ++ e2,
          by simp [Config.inner_execute, hd, hl]⟩,
          by simp [Config.inner_execute, hd, hl]⟩
      | ok cf =>
        exact ⟨⟨"could not find config file " ++ e ++ " at " ++ cf,
          by simp [Config.inner_execute, hd, hl, he]⟩,
          by simp [Config.inner_execute, hd, hl, he]⟩

/-- A concrete environment for the C9 witness: the config file exists but
fails to parse. -/
def envParseFail : CliEnv :=
  ⟨some "/home/user/.wasmer", none, .ok "/home/user/.wasmer/wasmer.toml",
    .error "unexpected token at line 1", none, true⟩

/-- Witness for C9: `config set telemetry.enabled true` on `envParseFail`
errors out and writes no config file. -/
theorem config_set_no_save_on_load_failure_witness :
    ((Config.set (.telemetryEnabled ⟨true⟩)).inner_execute envParseFail).saved
        = none ∧
    ∃ msg, ((Config.set (.telemetryEnabled ⟨true⟩)).inner_execute
        envParseFail).result = .error msg := by
  have h := config_set_no_save_on_load_failure envParseFail
    (.telemetryEnabled ⟨true⟩) (Or.inr ⟨"unexpected token at line 1", rfl⟩)
  exact ⟨h.2, h.1⟩

/-- C10: every `wasmer config` subcommand — pure getters of config-file
values included — first requires the wasmer directory to be resolvable:
when `WASMER_DIR` is unset and no compile-time `WASMER_INSTALL_PREFIX` was
provided, the command fails with an error, prints nothing, saves nothing,
and the outcome does not depend on the config file at all. -/
theorem config_requires_wasmer_dir (c : Config) (env : CliEnv)
    (h : resolveWasmerDir env = none) :
    (Config.inner_execute c env).result =
      .error "failed to retrieve the WASMER_DIR environment variables" ∧
    (Config.inner_execute c env).printed = [] ∧
    (Config.inner_execute c env).saved = none ∧
    ∀ cf, Config.inner_execute c { env with config_file := cf } =
      Config.inner_execute c env := by
  have h' : ∀ cf, resolveWasmerDir { env with config_file := cf } = none := by
    intro cf
    simpa [resolveWasmerDir] using h
  refine ⟨by simp [Config.inner_execute, h], by simp [Config.inner_execute, h],
    by simp [Config.inner_execute, h], fun cf => ?_⟩
  simp [Config.inner_execute, h, h' cf]

/-- A concrete environment for the C10 witness: neither `WASMER_DIR` nor a
compile-time install prefix is available, though the config file itself
would load fine. -/
def envNoDir : CliEnv :=
  ⟨none, none, .ok "/home/user/.wasmer/wasmer.toml",
    .ok ⟨⟨"https://registry.wasmer.io", []⟩, true, true, ⟨some "http://p"⟩⟩,
    none, true⟩

/-- Witness for C10: `config get proxy.url` on `envNoDir` fails before
touching the loadable config file. -/
theorem config_requires_wasmer_dir_witness :
    ((Config.get .proxyUrl).inner_execute envNoDir).result =
      .error "failed to retrieve the WASMER_DIR environment variables" ∧
    ((Config.get .proxyUrl).inner_execute envNoDir).printed = [] ∧
    ((Config.get .proxyUrl).inner_execute envNoDir).saved = none := by
  have h := config_requires_wasmer_dir (.get .proxyUrl) envNoDir rfl
  exact ⟨h.1, h.2.1, h.2.2.1⟩

end WasmerSpec
